import Mathlib

/-!
Verification of the FabricLA-Connector collection-and-ingestion pipeline.

This file gives a shallow embedding, in Lean, of the Python code under
`src/fabricla_connector/` and proves (or refutes) the frozen claims about it.

Embedding conventions:
* Python values handed to `json.dumps` are modelled by the inductive `PyVal`
  (`None`, booleans, integers, strings, dictionaries as association lists).
* `json.dumps` (with its default separators `", "` and `": "`) is modelled by
  `jsonDumps`; string escaping is not modelled, so string values are assumed
  escape-free (all concrete inputs used below are plain ASCII).
* Raised Python exceptions are modelled with `Except`: a function that can
  raise returns `Except ε α`.
* `time.sleep`, logging and `print` calls have no effect on any value the
  claims mention and are not modelled.
-/

namespace FabricLA

/-- Model of the Python values that the connector passes to `json.dumps`
and reads out of API payload dictionaries. -/
inductive PyVal where
  | none
  | bool (b : Bool)
  | int (i : Int)
  | str (s : String)
  | dict (fields : List (String × PyVal))

/-- Python truthiness (`bool(v)`) of a `PyVal`: `None`, `False`, `0`, the
empty string and the empty dict are falsy, everything else is truthy. -/
def truthy : PyVal → Bool
  | .none => false
  | .bool b => b
  | .int i => i != 0
  | .str s => s != ""
  | .dict fields => !fields.isEmpty

/-- Python short-circuit `a or b`: `a` when `a` is truthy, else `b`. -/
def pyOr (a b : PyVal) : PyVal :=
  if truthy a then a else b

/-- Python `d.get(key)` on a dictionary modelled as an association list
(missing key yields `None`, matching `dict.get`'s default). -/
def dictGet : List (String × PyVal) → String → PyVal
  | [], _ => PyVal.none
  | (k, v) :: rest, key => if k = key then v else dictGet rest key

mutual

/-- Model of Python `json.dumps(v)` with the default separators
(`", "` between items, `": "` after keys), as used by
`split_by_size` in `ingestion/batch.py`. -/
def jsonDumps : PyVal → String
  | .none => "null"
  | .bool b => if b then "true" else "false"
  | .int i => toString i
  | .str s => "\"" ++ s ++ "\""
  | .dict fields => "\x7b" ++ jsonDumpsFields fields ++ "\x7d"

/-- Serialization of the key/value pairs of a dictionary, joined by `", "`. -/
def jsonDumpsFields : List (String × PyVal) → String
  | [] => ""
  | [(k, v)] => "\"" ++ k ++ "\": " ++ jsonDumps v
  | (k, v) :: rest => "\"" ++ k ++ "\": " ++ jsonDumps v ++ ", " ++ jsonDumpsFields rest

end

/-- Model of Python `json.dumps(batch)` for a list of records: the items,
serialized and joined by `", "`, between `[` and `]`. -/
def jsonDumpsList (records : List PyVal) : String :=
  "[" ++ String.intercalate ", " (records.map jsonDumps) ++ "]"

/-- The serialized byte size of one record,
`len(json.dumps(record).encode(utf8))` in `split_by_size`. -/
def recordBytes (record : PyVal) : Nat :=
  (jsonDumps record).utf8ByteSize

/-- Sum of the individual serialized record sizes of a batch: the quantity
that `split_by_size`'s accumulator `current_size` tracks. -/
def batchBytes (batch : List PyVal) : Nat :=
  (batch.map recordBytes).sum

/-- The serialized byte size of a whole batch: the size of the JSON
serialization of the batch as one list. -/
def batchSerializedBytes (batch : List PyVal) : Nat :=
  (jsonDumpsList batch).utf8ByteSize

/-- The record loop of `split_by_size` (`ingestion/batch.py`, lines 60-83),
with the state `batches`, `current_batch`, `current_size` made explicit.
The final flush of a non-empty `current_batch` is the base case. -/
def splitBySizeLoop (maxSizeBytes : Nat) :
    List PyVal → List (List PyVal) → List PyVal → Nat → List (List PyVal)
  | [], batches, currentBatch, _ =>
      if currentBatch.isEmpty then batches else batches ++ [currentBatch]
  | record :: rest, batches, currentBatch, currentSize =>
      let recordSize := recordBytes record
      if recordSize > maxSizeBytes then
        if currentBatch.isEmpty then
          splitBySizeLoop maxSizeBytes rest (batches ++ [[record]]) currentBatch currentSize
        else
          splitBySizeLoop maxSizeBytes rest (batches ++ [currentBatch] ++ [[record]]) [] 0
      else if currentSize + recordSize > maxSizeBytes then
        splitBySizeLoop maxSizeBytes rest (batches ++ [currentBatch]) [record] recordSize
      else
        splitBySizeLoop maxSizeBytes rest batches
          (currentBatch ++ [record]) (currentSize + recordSize)

/-- Embedding of `split_by_size(records, max_size_bytes)` from
`ingestion/batch.py`: split records into batches whose accumulated
per-record serialized size does not exceed `max_size_bytes`, putting a
single record that alone exceeds the limit into its own batch. -/
def split_by_size (records : List PyVal) (maxSizeBytes : Nat) : List (List PyVal) :=
  splitBySizeLoop maxSizeBytes records [] [] 0

/-- A batch is well-sized when it is non-empty and the sum of its individual
record serialization sizes stays within the limit; the only other batches
`split_by_size` produces are single-record batches whose lone record already
exceeds the limit on its own. -/
def GoodBatch (maxSizeBytes : Nat) (b : List PyVal) : Prop :=
  (b ≠ [] ∧ batchBytes b ≤ maxSizeBytes) ∨
    ∃ r, b = [r] ∧ recordBytes r > maxSizeBytes

/-- A concrete record `{"a": "xxx"}` whose `json.dumps` serialization is
12 bytes. -/
def recA : PyVal := PyVal.dict [("a", PyVal.str "xxx")]


/-! Retry policy (`ingestion/retry.py`) and the chunked ingestion loop of
`AzureMonitorIngestionClient.ingest` (`ingestion/client.py`). -/

/-- Is `needle` a contiguous sublist of the haystack (Python `needle in hay`
on strings, character-wise)? The empty needle is contained everywhere. -/
def subChars (needle : List Char) : List Char → Bool
  | [] => needle.isEmpty
  | c :: rest => needle.isPrefixOf (c :: rest) || subChars needle rest

/-- Python `needle in hay` for strings. -/
def strContains (hay needle : String) : Bool :=
  subChars needle.toList hay.toList

/-- Python `s.lower()`, character by character (the connector only
lower-cases ASCII error messages and strategy names). -/
def pyLower (s : String) : String :=
  String.mk (s.data.map Char.toLower)

/-- The retryable error-message patterns of `RetryPolicy._should_retry`
(`ingestion/retry.py`, lines 98-108). -/
def retryablePatterns : List String :=
  ["429", "500", "502", "503", "504", "rate limit", "timeout", "connection", "temporary"]

/-- Embedding of `RetryPolicy._should_retry(error_msg)`: the lower-cased
message is retryable iff it contains one of the patterns. -/
def should_retry (errorMsg : String) : Bool :=
  retryablePatterns.any (fun pattern => strContains (pyLower errorMsg) pattern)

/-- The retry policy; only `max_retries` affects any value the claims
mention (the delay fields feed `time.sleep`, which is not modelled). -/
structure RetryPolicy where
  max_retries : Nat

/-- The `while attempt <= self.max_retries` loop of `RetryPolicy.execute`
(`ingestion/retry.py`, lines 53-85). The operation is an oracle giving the
outcome of its i-th invocation; `attempt` counts completed invocations, so
the Python loop guard `attempt <= max_retries` (checked before the
increment) corresponds to starting fuel `max_retries + 1 - attempt`. The
returned `Nat` is the total number of invocations performed. -/
def executeLoop (shouldRetry : String → Bool) (op : Nat → Except String α)
    (maxRetries : Nat) : Nat → Nat → Option String → Except String α × Nat
  | 0, attempt, lastExc =>
      (match lastExc with
       | some e => Except.error e
       | Option.none => Except.error "Unexpected retry loop exit", attempt)
  | fuel + 1, attempt, _ =>
      match op attempt with
      | .ok v => (.ok v, attempt + 1)
      | .error e =>
          if !shouldRetry e then (.error e, attempt + 1)
          else if attempt + 1 > maxRetries then (.error e, attempt + 1)
          else executeLoop shouldRetry op maxRetries fuel (attempt + 1) (some e)

/-- Embedding of `RetryPolicy.execute(func)`: run the loop from attempt 0
with the classification of `_should_retry`, also returning how many times
the operation was invoked. -/
def RetryPolicy.execute (p : RetryPolicy) (op : Nat → Except String α) :
    Except String α × Nat :=
  executeLoop should_retry op p.max_retries (p.max_retries + 1) 0 Option.none

/-- Fuel-indexed chunking: `chunkByFuel k fuel l` splits `l` into chunks of
`k + 1` elements, provided `fuel ≥ l.length` (each step consumes at least
one element, so `l.length` fuel always suffices). -/
def chunkByFuel (k : Nat) : Nat → List α → List (List α)
  | _, [] => []
  | 0, x :: xs => [x :: xs]
  | fuel + 1, x :: xs => (x :: xs.take k) :: chunkByFuel k fuel (xs.drop k)

/-- Split a list into chunks of `k + 1` elements, the slices
`records[i:i + chunk_size]` of `chunk_records` for `chunk_size = k + 1`. -/
def chunkBy (k : Nat) (l : List α) : List (List α) :=
  chunkByFuel k l.length l

/-- Embedding of `chunk_records(records, chunk_size)` (`ingestion/batch.py`,
lines 7-19), which iterates `range(0, len(records), chunk_size)`: a zero
step raises `ValueError`, a negative step yields an empty range (hence no
chunks), and a positive step slices the list into `chunk_size`-sized
chunks. -/
def chunk_records (records : List α) (chunkSize : Int) :
    Except String (List (List α)) :=
  if chunkSize = 0 then Except.error "range() arg 3 must not be zero"
  else if chunkSize < 0 then Except.ok []
  else Except.ok (chunkBy (chunkSize.toNat - 1) records)

/-- One entry of the `failed_chunks` list built by
`AzureMonitorIngestionClient.ingest`. -/
structure ChunkError where
  chunk : Nat
  size : Nat
  error : String
deriving DecidableEq

/-- The result dictionary of `AzureMonitorIngestionClient.ingest`
(`ingestion/client.py`, lines 143-150); the float `success_rate` and the
skipped-case `message` field are not modelled. -/
structure IngestResult where
  status : String
  ingested_count : Nat
  failed_count : Nat
  total_count : Nat
  failed_chunks : List ChunkError
deriving DecidableEq

/-- The per-chunk loop of `AzureMonitorIngestionClient.ingest`
(`ingestion/client.py`, lines 116-137): each chunk is uploaded through
`RetryPolicy.execute`; a success adds the chunk size to `total_ingested`, a
raised error is caught and the chunk recorded in `failed_chunks`.
`upload` is an oracle giving the outcome of the i-th upload call overall
(the pattern of per-call successes and failures), and `calls` threads the
global upload-call counter. -/
def ingestChunks (upload : Nat → Except String Unit) (maxRetries : Nat) :
    List (List α) → Nat → Nat → List ChunkError → Nat →
      Nat × List ChunkError × Nat
  | [], _, ingested, failed, calls => (ingested, failed, calls)
  | chunk :: rest, idx, ingested, failed, calls =>
      match executeLoop should_retry (fun k => upload (calls + k)) maxRetries
          (maxRetries + 1) 0 Option.none with
      | (.ok _, n) =>
          ingestChunks upload maxRetries rest (idx + 1)
            (ingested + chunk.length) failed (calls + n)
      | (.error e, n) =>
          ingestChunks upload maxRetries rest (idx + 1) ingested
            (failed ++ [⟨idx + 1, chunk.length, e⟩]) (calls + n)

/-- Embedding of `AzureMonitorIngestionClient.ingest(records, chunk_size,
max_retries)` (`ingestion/client.py`, lines 64-162). Empty input returns
the skipped summary without any upload call; otherwise the records are
chunked (a zero `chunk_size` raises `ValueError` from `range`) and each
chunk is uploaded under the retry policy. The schema-validation call only
logs (its exceptions are caught) and is not modelled. The second component
of the returned pair is the total number of upload calls performed. -/
def ingest (upload : Nat → Except String Unit) (records : List α)
    (chunkSize : Int) (maxRetries : Nat) : Except String (IngestResult × Nat) :=
  if records.isEmpty then
    Except.ok ({ status := "skipped", ingested_count := 0, failed_count := 0,
                 total_count := 0, failed_chunks := [] }, 0)
  else
    match chunk_records records chunkSize with
    | .error e => Except.error e
    | .ok chunks =>
        match ingestChunks upload maxRetries chunks 0 0 [] 0 with
        | (ingested, failed, calls) =>
            Except.ok
              ({ status := if failed.isEmpty then "completed" else "partial",
                 ingested_count := ingested,
                 failed_count := (failed.map ChunkError.size).sum,
                 total_count := records.length,
                 failed_chunks := failed }, calls)

/-- The HTTP 401 message raised by the upload mock of Scenario C; it
contains none of the retryable patterns. -/
def msg401 : String := "HTTP 401 Unauthorized"

/-- An HTTP 413 payload-too-large message; `_should_retry` matches none of
its patterns against it, so it is classified non-retryable. -/
def msg413 : String := "Response status: 413 Request Entity Too Large"

/-- The concrete result of a successful one-record ingestion run. -/
def resC6 : IngestResult :=
  { status := "completed", ingested_count := 1, failed_count := 0,
    total_count := 1, failed_chunks := [] }

/-! The Fabric API client (`api/fabric_client.py`) and its exception
taxonomy (`api/exceptions.py`). -/

/-- The Python exceptions raised by `FabricAPIClient._handle_response`:
the `FabricAPIException` hierarchy, plus the `ValueError` that `int()`
raises (which is NOT a `FabricAPIException`). -/
inductive PyExn where
  | rateLimit (msg : String) (retryAfter : Int)
  | authn (msg : String)
  | authz (msg : String)
  | notFound (msg : String)
  | api (msg : String)
  | valueError (msg : String)
deriving DecidableEq

/-- Whether the exception is (a subclass of) `FabricAPIException`;
`FabricAuthenticationError` and `FabricAuthorizationError` are, a Python
`ValueError` is not. -/
def isFabricAPIException : PyExn → Bool
  | .valueError _ => false
  | _ => true

/-- Whether the exception is a `FabricRateLimitError`. -/
def isRateLimitError : PyExn → Bool
  | .rateLimit _ _ => true
  | _ => false

/-- One HTTP response as the client reads it: status code, the
`Retry-After` header if present, the `value` list and `continuationToken`
of the JSON body, and the response text. -/
structure HttpResponse where
  status : Nat
  retryAfterHeader : Option String
  value : List PyVal
  continuationToken : Option String
  text : String

/-- Python `int(s)` on a string: strip surrounding whitespace, allow one
optional sign, then require at least one decimal digit; anything else
raises `ValueError`. -/
def pyIntOfString (s : String) : Except String Int :=
  let trimmed := (((s.data.dropWhile Char.isWhitespace).reverse.dropWhile
    Char.isWhitespace).reverse)
  let signed : Int × List Char :=
    match trimmed with
    | '-' :: rest => (-1, rest)
    | '+' :: rest => (1, rest)
    | rest => (1, rest)
  match signed with
  | (sign, digits) =>
      if !digits.isEmpty && digits.all Char.isDigit then
        Except.ok (sign * (digits.foldl (fun n c => 10 * n + (c.toNat - 48)) 0 : Nat))
      else
        Except.error ("invalid literal for int() with base 10: " ++ s)

/-- Embedding of `FabricAPIClient._handle_response(response, context)`
(`api/fabric_client.py`, lines 38-106). On 200 the parsed body (here: the
response itself) is returned; on 429 the `Retry-After` header is fed to
`int()` with default `60` when absent (`headers.get` returns the int 60),
the client sleeps (not modelled) and raises `FabricRateLimitError` — a
non-numeric header makes `int()` raise `ValueError` instead; 401, 403 and
404 raise their dedicated errors; anything else raises the base
`FabricAPIException`. -/
def handle_response (response : HttpResponse) (context : String) :
    Except PyExn HttpResponse :=
  if response.status = 200 then Except.ok response
  else if response.status = 429 then
    match response.retryAfterHeader with
    | Option.none => Except.error (.rateLimit ("Rate limited: " ++ context) 60)
    | some h =>
        match pyIntOfString h with
        | .ok retryAfter =>
            Except.error (.rateLimit ("Rate limited: " ++ context) retryAfter)
        | .error m => Except.error (.valueError m)
  else if response.status = 401 then
    Except.error (.authn ("Authentication failed: " ++ context))
  else if response.status = 403 then
    Except.error (.authz ("Permission denied: " ++ context))
  else if response.status = 404 then
    Except.error (.notFound ("Resource not found: " ++ context))
  else
    Except.error (.api ("API error: " ++ response.text ++ " - " ++ context))

/-- The `while True` pagination loop of `FabricAPIClient.get_paginated`
(`api/fabric_client.py`, lines 124-160), as a fuel-indexed recursion over
an oracle giving the response to the i-th HTTP request (the continuation
token only determines which request is issued, which the oracle's call
index models). A `FabricRateLimitError` is caught and the same page
retried (`continue`); every other exception propagates. `Option.none`
models running out of fuel, i.e. the loop not having terminated within
`fuel` requests. -/
def get_paginated (responses : Nat → HttpResponse) (context : String) :
    Nat → Nat → List PyVal → Option (Except PyExn (List PyVal))
  | 0, _, _ => Option.none
  | fuel + 1, calls, allItems =>
      match handle_response (responses calls) context with
      | .ok data =>
          let allItems := allItems ++ data.value
          match data.continuationToken with
          | Option.none => some (Except.ok allItems)
          | some t =>
              if t = "" then some (Except.ok allItems)
              else get_paginated responses context fuel (calls + 1) allItems
      | .error e =>
          if isRateLimitError e then get_paginated responses context fuel (calls + 1) allItems
          else some (Except.error e)

/-- Python truthiness of the optional `lookback_hours` argument
(`if lookback_hours:` — `None` and `0` are falsy). -/
def pyTruthyOptInt : Option Int → Bool
  | Option.none => false
  | some n => n != 0

/-- Embedding of `FabricAPIClient.get_user_activities(workspace_id,
lookback_hours)` (`api/fabric_client.py`, lines 352-391): one GET through
`_handle_response`; on success the body's `value` list, optionally
filtered by the lookback window (`withinLookback` abstracts the
`parse_iso(act.get(CreationTime)) >= now - lookback` test, which depends
on the wall clock); `FabricAuthorizationError` and then any
`FabricAPIException` are caught and turned into `[]`, so only non-Fabric
exceptions (such as `ValueError`) propagate. -/
def get_user_activities (response : HttpResponse) (lookbackHours : Option Int)
    (withinLookback : PyVal → Bool) : Except PyExn (List PyVal) :=
  match handle_response response "get user activity for workspace" with
  | .ok data =>
      let activities := data.value
      let activities :=
        if pyTruthyOptInt lookbackHours then activities.filter withinLookback
        else activities
      Except.ok activities
  | .error e =>
      if isFabricAPIException e then Except.ok [] else Except.error e

/-- Embedding of `FabricAPIClient.get_dataset_refreshes(workspace_id,
dataset_id, lookback_hours)` (`api/fabric_client.py`, lines 270-308): same
shape as `get_user_activities` with a single `except FabricAPIException:
return []` clause (which also catches the auth errors, its subclasses). -/
def get_dataset_refreshes (response : HttpResponse) (lookbackHours : Option Int)
    (withinLookback : PyVal → Bool) : Except PyExn (List PyVal) :=
  match handle_response response "get refresh history for dataset" with
  | .ok data =>
      let refreshes := data.value
      let refreshes :=
        if pyTruthyOptInt lookbackHours then refreshes.filter withinLookback
        else refreshes
      Except.ok refreshes
  | .error e =>
      if isFabricAPIException e then Except.ok [] else Except.error e

/-- A concrete 401 response carrying a non-empty `value` list. -/
def resp401 : HttpResponse :=
  { status := 401, retryAfterHeader := Option.none, value := [recA],
    continuationToken := Option.none, text := "Unauthorized" }

/-- A concrete 403 response carrying a non-empty `value` list. -/
def resp403 : HttpResponse :=
  { status := 403, retryAfterHeader := Option.none, value := [recA],
    continuationToken := Option.none, text := "Forbidden" }

/-- Response oracle: first request is rate-limited without a `Retry-After`
header, every further request succeeds with one item and no continuation
token. -/
def respSeq429 : Nat → HttpResponse := fun n =>
  if n = 0 then
    { status := 429, retryAfterHeader := Option.none, value := [],
      continuationToken := Option.none, text := "" }
  else
    { status := 200, retryAfterHeader := Option.none, value := [recA],
      continuationToken := Option.none, text := "" }

/-- Response oracle: first request is rate-limited with the malformed
header `Retry-After: abc`, every further request succeeds. -/
def respSeqBad : Nat → HttpResponse := fun n =>
  if n = 0 then
    { status := 429, retryAfterHeader := some "abc", value := [],
      continuationToken := Option.none, text := "" }
  else
    { status := 200, retryAfterHeader := Option.none, value := [recA],
      continuationToken := Option.none, text := "" }

/-- Response oracle: every request is rate-limited with `Retry-After: 5`. -/
def respAll429 : Nat → HttpResponse := fun _ =>
  { status := 429, retryAfterHeader := some "5", value := [],
    continuationToken := Option.none, text := "" }

/-! The collection-strategy engine (`monitoring_detection.py`). -/

/-- The `valid_strategies` list of `MonitoringStrategy._validate_strategy`. -/
def valid_strategies : List String := ["auto", "full", "complement", "minimal"]

/-- Embedding of `MonitoringStrategy._validate_strategy(strategy)`
(`monitoring_detection.py`, lines 293-304): `os.getenv` returns the
environment variable `FABRIC_MONITORING_STRATEGY` when set (modelled by
`envValue`) and otherwise the constructor argument; the result is
lower-cased; a value outside the four valid strategies falls back to
`auto` with only a logged warning — nothing is raised. -/
def validate_strategy (envValue : Option String) (strategy : String) : String :=
  let envStrategy := pyLower (envValue.getD strategy)
  if envStrategy ∈ valid_strategies then envStrategy else "auto"

/-- The constructed strategy engine; its only state is the validated
strategy string. -/
structure MonitoringStrategy where
  strategy : String
deriving DecidableEq

/-- Embedding of the `MonitoringStrategy.__init__(strategy)` constructor,
which stores `_validate_strategy(strategy)`. -/
def MonitoringStrategy.init (envValue : Option String) (strategy : String) :
    MonitoringStrategy :=
  ⟨validate_strategy envValue strategy⟩

/-- Embedding of the factory `get_monitoring_strategy(strategy)`
(`monitoring_detection.py`, lines 369-373): a `None` argument is replaced
by the environment value (default `auto`) before construction. -/
def get_monitoring_strategy (envValue : Option String) (strategy : Option String) :
    MonitoringStrategy :=
  match strategy with
  | Option.none => MonitoringStrategy.init envValue (envValue.getD "auto")
  | some s => MonitoringStrategy.init envValue s

/-! The activity-run normalizer (`mappers/pipeline.py`). -/

/-- The `output = activity.get("output") or \x7b\x7d` step of
`ActivityRunMapper.map` (`mappers/pipeline.py`, line 87). -/
def activityOutput (activity : List (String × PyVal)) : PyVal :=
  pyOr (dictGet activity "output") (PyVal.dict [])

/-- The `data_read` fallback chain of `ActivityRunMapper.map`
(lines 93-99): `output.get("dataRead") or output.get("rowsRead") or
output.get("recordsRead") or output.get("bytesRead")` under the
`isinstance(output, dict)` guard (`None` otherwise); Python `or` is
left-associated. -/
def activityDataRead (activity : List (String × PyVal)) : PyVal :=
  match activityOutput activity with
  | .dict output =>
      pyOr (pyOr (pyOr (dictGet output "dataRead") (dictGet output "rowsRead"))
        (dictGet output "recordsRead")) (dictGet output "bytesRead")
  | _ => PyVal.none

/-- The `data_written` fallback chain of `ActivityRunMapper.map`
(lines 100-105). -/
def activityDataWritten (activity : List (String × PyVal)) : PyVal :=
  match activityOutput activity with
  | .dict output =>
      pyOr (pyOr (pyOr (dictGet output "dataWritten") (dictGet output "rowsWritten"))
        (dictGet output "recordsWritten")) (dictGet output "bytesWritten")
  | _ => PyVal.none

/-- The `records_processed` fallback chain of `ActivityRunMapper.map`
(lines 106-110). -/
def activityRecordsProcessed (activity : List (String × PyVal)) : PyVal :=
  match activityOutput activity with
  | .dict output =>
      pyOr (pyOr (dictGet output "recordsProcessed") (dictGet output "rowsProcessed"))
        (dictGet output "itemsProcessed")
  | _ => PyVal.none

/-- The first truthy value of the list, or the default when none is
truthy: the value of a left-associated Python `or` chain. -/
def firstTruthyOr : List PyVal → PyVal → PyVal
  | [], dflt => dflt
  | v :: vs, dflt => if truthy v then v else firstTruthyOr vs dflt

/-- A raw activity item whose output reports `dataRead: 0` and
`rowsRead: 5`. -/
def actCex : List (String × PyVal) :=
  [("output", PyVal.dict [("dataRead", PyVal.int 0), ("rowsRead", PyVal.int 5)])]

theorem splitBySizeLoop_good (maxSizeBytes : Nat) :
    ∀ (rest : List PyVal) (batches : List (List PyVal))
      (cur : List PyVal) (curSize : Nat),
      (∀ b ∈ batches, GoodBatch maxSizeBytes b) →
      curSize = batchBytes cur →
      batchBytes cur ≤ maxSizeBytes →
      ∀ b ∈ splitBySizeLoop maxSizeBytes rest batches cur curSize,
        GoodBatch maxSizeBytes b := by
  intro rest
  induction rest with
  | nil =>
    intro batches cur curSize hB hsz hle b hb
    simp only [splitBySizeLoop] at hb
    split at hb
    · exact hB b hb
    · rcases List.mem_append.mp hb with h | h
      · exact hB b h
      · rw [List.mem_singleton] at h
        subst h
        rename_i hne
        refine Or.inl ⟨?_, hle⟩
        intro hnil
        subst hnil
        simp at hne
  | cons record rest ih =>
    intro batches cur curSize hB hsz hle b hb
    simp only [splitBySizeLoop] at hb
    split at hb
    · rename_i hbig
      split at hb
      · rename_i hcur
        refine ih _ _ _ ?_ hsz hle b hb
        intro b' hb'
        rcases List.mem_append.mp hb' with h | h
        · exact hB b' h
        · rw [List.mem_singleton] at h
          subst h
          exact Or.inr ⟨record, rfl, hbig⟩
      · rename_i hcur
        refine ih _ _ _ ?_ (by simp [batchBytes]) (by simp [batchBytes]) b hb
        intro b' hb'
        rcases List.mem_append.mp hb' with h | h
        · rcases List.mem_append.mp h with h2 | h2
          · exact hB b' h2
          · rw [List.mem_singleton] at h2
            subst h2
            refine Or.inl ⟨?_, hle⟩
            intro hnil
            subst hnil
            simp at hcur
        · rw [List.mem_singleton] at h
          subst h
          exact Or.inr ⟨record, rfl, hbig⟩
    · rename_i hbig
      split at hb
      · rename_i hflush
        have hrec : recordBytes record ≤ maxSizeBytes := Nat.le_of_not_lt hbig
        refine ih _ _ _ ?_ (by simp [batchBytes]) (by simpa [batchBytes] using hrec) b hb
        intro b' hb'
        rcases List.mem_append.mp hb' with h | h
        · exact hB b' h
        · rw [List.mem_singleton] at h
          subst h
          refine Or.inl ⟨?_, hle⟩
          intro hnil
          subst hnil
          simp [batchBytes] at hsz
          subst hsz
          exact hbig (Nat.lt_of_lt_of_le hflush (by simp))
      · rename_i hflush
        have hfit : batchBytes cur + recordBytes record ≤ maxSizeBytes := by
          have := Nat.le_of_not_lt hflush
          omega
        refine ih _ _ _ hB ?_ ?_ b hb
        · simp [batchBytes, hsz]
        · simpa [batchBytes] using hfit

/-- C1 (amended): every batch produced by `split_by_size`, except a batch
holding exactly one record whose own serialized size exceeds
`max_size_bytes`, has SUM of individual record serialized sizes at most
`max_size_bytes`; the flushing decision does not account for the separator
or bracket overhead of the whole-batch JSON serialization. -/
theorem C1_split_by_size_batch_bytes (records : List PyVal) (maxSizeBytes : Nat)
    (b : List PyVal) (hb : b ∈ split_by_size records maxSizeBytes) :
    (b ≠ [] ∧ batchBytes b ≤ maxSizeBytes) ∨
      ∃ r, b = [r] ∧ recordBytes r > maxSizeBytes :=
  splitBySizeLoop_good maxSizeBytes records [] [] 0
    (by intro b' hb'; simp at hb') rfl (by simp [batchBytes]) b hb

/-- Witness for C1: applying the theorem to a concrete run. -/
theorem C1_witness :
    ([recA] ≠ [] ∧ batchBytes [recA] ≤ 100) ∨
      ∃ r, [recA] = [r] ∧ recordBytes r > 100 :=
  C1_split_by_size_batch_bytes [recA] 100 [recA] (List.Mem.head _)

/-- Counterexample to C1 as stated: with `max_size_bytes = 24`, the two
records `{"a": "xxx"}` (12 serialized bytes each) are put into one batch of
two records, but the JSON serialization of that whole batch — the list
serialization the upload would send — is 28 bytes, exceeding the limit,
because the flushing decision ignores the `", "` separator and the
brackets. -/
theorem C1_counterexample :
    split_by_size [recA, recA] 24 = [[recA, recA]] ∧
    batchSerializedBytes [recA, recA] = 28 ∧
    24 < batchSerializedBytes [recA, recA] ∧
    [recA, recA].length ≠ 1 :=
  ⟨rfl, rfl, by decide, by decide⟩

theorem executeLoop_calls_le (shouldRetry : String → Bool)
    (op : Nat → Except String α) (maxRetries : Nat) :
    ∀ (fuel attempt : Nat) (lastExc : Option String),
      (executeLoop shouldRetry op maxRetries fuel attempt lastExc).2 ≤ attempt + fuel := by
  intro fuel
  induction fuel with
  | zero =>
    intro attempt lastExc
    cases lastExc <;> simp [executeLoop]
  | succ fuel ih =>
    intro attempt lastExc
    simp only [executeLoop]
    cases op attempt with
    | ok v => simp
    | error e =>
      by_cases hsr : shouldRetry e
      · simp only [hsr, Bool.not_true, Bool.false_eq_true, if_false]
        by_cases hatt : attempt + 1 > maxRetries
        · simp only [if_pos hatt]; simp
        · simp only [if_neg hatt]
          have := ih (attempt + 1) (some e)
          omega
      · simp only [Bool.not_eq_true] at hsr
        simp only [hsr, Bool.not_false, if_true]
        simp

/-- C5: `RetryPolicy.execute` never invokes the wrapped operation more
than `max_retries + 1` times, whatever the sequence of outcomes and hence
whatever the classification of each raised error. -/
theorem C5_retry_bound {α : Type} (maxRetries : Nat) (op : Nat → Except String α) :
    ((RetryPolicy.mk maxRetries).execute op).2 ≤ maxRetries + 1 := by
  have h := executeLoop_calls_le should_retry op maxRetries (maxRetries + 1) 0 Option.none
  simpa [RetryPolicy.execute] using h

theorem executeLoop_first_nonretryable (shouldRetry : String → Bool)
    (op : Nat → Except String α) (maxRetries : Nat) (e : String)
    (hop : op 0 = Except.error e) (hsr : shouldRetry e = false) :
    executeLoop shouldRetry op maxRetries (maxRetries + 1) 0 Option.none =
      (Except.error e, 1) := by
  simp only [executeLoop, hop, hsr]
  simp

theorem chunkByFuel_nil (k fuel : Nat) : chunkByFuel k fuel ([] : List α) = [] := by
  cases fuel <;> rfl

theorem chunk_records_single (records : List α) (chunkSize : Int)
    (hne : records ≠ []) (h1 : 1 ≤ chunkSize)
    (hlen : (records.length : Int) ≤ chunkSize) :
    chunk_records records chunkSize = Except.ok [records] := by
  unfold chunk_records
  have h0 : ¬(chunkSize = 0) := by omega
  have hneg : ¬(chunkSize < 0) := by omega
  rw [if_neg h0, if_neg hneg]
  cases records with
  | nil => exact absurd rfl hne
  | cons x xs =>
    have hk : xs.length ≤ chunkSize.toNat - 1 := by
      simp only [List.length_cons] at hlen
      omega
    unfold chunkBy
    simp only [List.length_cons, chunkByFuel]
    rw [List.take_of_length_le hk, List.drop_eq_nil_of_le hk, chunkByFuel_nil]

theorem ingest_single_chunk_nonretryable (upload : Nat → Except String Unit)
    (records : List α) (chunkSize : Int) (maxRetries : Nat) (e : String)
    (hne : records ≠ []) (h1 : 1 ≤ chunkSize)
    (hlen : (records.length : Int) ≤ chunkSize)
    (hop : upload 0 = Except.error e) (hsr : should_retry e = false) :
    ingest upload records chunkSize maxRetries =
      Except.ok ({ status := "partial", ingested_count := 0,
                   failed_count := records.length, total_count := records.length,
                   failed_chunks := [⟨1, records.length, e⟩] }, 1) := by
  have hE : records.isEmpty = false := by
    cases records with
    | nil => exact absurd rfl hne
    | cons x xs => rfl
  have hexec : executeLoop should_retry (fun k => upload (0 + k)) maxRetries
      (maxRetries + 1) 0 Option.none = (Except.error e, 1) :=
    executeLoop_first_nonretryable _ _ _ _ (by simpa using hop) hsr
  unfold ingest
  rw [hE, chunk_records_single records chunkSize hne h1 hlen]
  simp only [ingestChunks, hexec, Bool.false_eq_true, if_false, List.isEmpty_cons]
  simp

/-- C2 (amended): when the first chunk upload fails with an HTTP 401
error, no retry is attempted (exactly one upload call happens) and zero
records are counted as sent — but `ingest` does not raise: it catches the
error, records the chunk in `failed_chunks`, and returns a result with
status partial. -/
theorem C2_auth_error_caught (records : List α) (chunkSize : Int)
    (maxRetries : Nat) (hne : records ≠ []) (h1 : 1 ≤ chunkSize)
    (hlen : (records.length : Int) ≤ chunkSize) :
    ingest (fun _ => Except.error msg401) records chunkSize maxRetries =
      Except.ok ({ status := "partial", ingested_count := 0,
                   failed_count := records.length, total_count := records.length,
                   failed_chunks := [⟨1, records.length, msg401⟩] }, 1) :=
  ingest_single_chunk_nonretryable _ records chunkSize maxRetries msg401
    hne h1 hlen rfl rfl

/-- Witness for C2: the amended theorem at a concrete one-record input. -/
theorem C2_witness :
    ingest (fun _ => Except.error msg401) ([recA] : List PyVal) 1 3 =
      Except.ok ({ status := "partial", ingested_count := 0, failed_count := 1,
                   total_count := 1, failed_chunks := [⟨1, 1, msg401⟩] }, 1) := by
  have h := C2_auth_error_caught (α := PyVal) [recA] 1 3 (by simp) (by decide) (by decide)
  simpa using h

/-- Counterexample to C2 as stated: with the upload failing with HTTP 401
on its first (and only) call, `ingest` performs no retry and counts zero
records as sent, but it does not raise the error to its caller — it
returns normally (`Except.ok`, status partial) with the failure recorded
in `failed_chunks`. -/
theorem C2_counterexample :
    ingest (fun _ => Except.error msg401) ([recA, recA] : List PyVal) 5 2 =
      Except.ok ({ status := "partial", ingested_count := 0, failed_count := 2,
                   total_count := 2, failed_chunks := [⟨1, 2, msg401⟩] }, 1) := rfl

/-- C3 (amended): when an upload is rejected as payload too large (HTTP
413), `AzureMonitorIngestionClient.ingest` performs no splitting and no
retry at all: the error is classified non-retryable, exactly one upload
call happens, and the whole chunk is recorded as failed. -/
theorem C3_payload_too_large_not_split (records : List α) (chunkSize : Int)
    (maxRetries : Nat) (hne : records ≠ []) (h1 : 1 ≤ chunkSize)
    (hlen : (records.length : Int) ≤ chunkSize) :
    ingest (fun _ => Except.error msg413) records chunkSize maxRetries =
      Except.ok ({ status := "partial", ingested_count := 0,
                   failed_count := records.length, total_count := records.length,
                   failed_chunks := [⟨1, records.length, msg413⟩] }, 1) :=
  ingest_single_chunk_nonretryable _ records chunkSize maxRetries msg413
    hne h1 hlen rfl rfl

/-- Witness for C3: the amended theorem at a concrete one-record input. -/
theorem C3_witness :
    ingest (fun _ => Except.error msg413) ([recA] : List PyVal) 2 3 =
      Except.ok ({ status := "partial", ingested_count := 0, failed_count := 1,
                   total_count := 1, failed_chunks := [⟨1, 1, msg413⟩] }, 1) := by
  have h := C3_payload_too_large_not_split (α := PyVal) [recA] 2 3 (by simp)
    (by decide) (by decide)
  simpa using h

/-- Counterexample to C3 as stated: a three-record chunk rejected as
payload too large is recorded as failed whole after a single upload call —
no halves are formed and retried (that would require at least three upload
calls or a sent count above zero). -/
theorem C3_counterexample :
    ingest (fun _ => Except.error msg413) ([recA, recA, recA] : List PyVal) 3 3 =
      Except.ok ({ status := "partial", ingested_count := 0, failed_count := 3,
                   total_count := 3, failed_chunks := [⟨1, 3, msg413⟩] }, 1) := rfl

theorem chunkByFuel_length_sum (k : Nat) :
    ∀ (fuel : Nat) (l : List α), l.length ≤ fuel →
      ((chunkByFuel k fuel l).map List.length).sum = l.length := by
  intro fuel
  induction fuel with
  | zero =>
    intro l hl
    cases l with
    | nil => rfl
    | cons x xs => simp at hl
  | succ fuel ih =>
    intro l hl
    cases l with
    | nil => rfl
    | cons x xs =>
      simp only [chunkByFuel, List.map_cons, List.sum_cons]
      have h2 : (xs.drop k).length ≤ fuel := by
        simp only [List.length_cons] at hl
        simp only [List.length_drop]
        omega
      rw [ih (xs.drop k) h2]
      simp only [List.length_cons, List.length_take, List.length_drop]
      omega

theorem ingestChunks_conservation (upload : Nat → Except String Unit)
    (maxRetries : Nat) :
    ∀ (chunks : List (List α)) (idx ingested : Nat) (failed : List ChunkError)
      (calls : Nat),
      (ingestChunks upload maxRetries chunks idx ingested failed calls).1 +
        (((ingestChunks upload maxRetries chunks idx ingested failed calls).2.1).map
          ChunkError.size).sum =
      ingested + (failed.map ChunkError.size).sum + (chunks.map List.length).sum := by
  intro chunks
  induction chunks with
  | nil =>
    intro idx ingested failed calls
    simp [ingestChunks]
  | cons chunk rest ih =>
    intro idx ingested failed calls
    simp only [ingestChunks]
    rcases hx : executeLoop should_retry (fun k => upload (calls + k)) maxRetries
        (maxRetries + 1) 0 Option.none with ⟨res, n⟩
    cases res with
    | ok v =>
      simp only []
      rw [ih]
      simp only [List.map_cons, List.sum_cons]
      omega
    | error e =>
      simp only []
      rw [ih]
      simp only [List.map_append, List.sum_append, List.map_cons, List.sum_cons,
        List.map_nil, List.sum_nil]
      omega

/-- C6 (amended): for every positive `chunk_size`, every record list and
every pattern of upload outcomes, the result of `ingest` satisfies
`ingested_count + failed_count = total_count`. (With `chunk_size ≤ 0` the
chunking covers no records and the law fails; see the counterexample.) -/
theorem C6_conservation (upload : Nat → Except String Unit) (records : List α)
    (chunkSize : Int) (maxRetries : Nat) (res : IngestResult) (calls : Nat)
    (h1 : 1 ≤ chunkSize)
    (h : ingest upload records chunkSize maxRetries = Except.ok (res, calls)) :
    res.ingested_count + res.failed_count = res.total_count := by
  unfold ingest at h
  by_cases hrec : records.isEmpty
  · rw [if_pos hrec] at h
    simp only [Except.ok.injEq, Prod.mk.injEq] at h
    obtain ⟨hres, hcalls⟩ := h
    rw [← hres]
    rfl
  · rw [if_neg hrec] at h
    have h0 : ¬(chunkSize = 0) := by omega
    have hneg : ¬(chunkSize < 0) := by omega
    simp only [chunk_records, if_neg h0, if_neg hneg] at h
    rcases hx : ingestChunks upload maxRetries
        (chunkBy (chunkSize.toNat - 1) records) 0 0 [] 0 with ⟨ingested, failed, calls2⟩
    rw [hx] at h
    simp only [Except.ok.injEq, Prod.mk.injEq] at h
    obtain ⟨hres, hcalls⟩ := h
    have hcons := ingestChunks_conservation upload maxRetries
      (chunkBy (chunkSize.toNat - 1) records) 0 0 [] 0
    rw [hx] at hcons
    simp only [List.map_nil, List.sum_nil] at hcons
    have hsum : ((chunkBy (chunkSize.toNat - 1) records).map List.length).sum =
        records.length :=
      chunkByFuel_length_sum (chunkSize.toNat - 1) records.length records (Nat.le_refl _)
    rw [← hres]
    simp only []
    rw [hsum] at hcons
    omega

/-- Witness for C6: the conservation law at a concrete successful run. -/
theorem C6_witness : resC6.ingested_count + resC6.failed_count = resC6.total_count :=
  C6_conservation (fun _ => Except.ok ()) ([recA] : List PyVal) 1 0 resC6 1
    (by decide) rfl

/-- Counterexample to C6 as stated (for every chunk size): with
`chunk_size = -1` the Python `range(0, len(records), chunk_size)` is empty,
so no chunk is ever formed or uploaded, and `ingest` returns
`ingested_count = 0`, `failed_count = 0` for a one-record input whose
`total_count` is 1, violating the conservation law. -/
theorem C6_counterexample :
    ingest (fun _ => Except.ok ()) ([recA] : List PyVal) (-1) 3 =
      Except.ok ({ status := "completed", ingested_count := 0, failed_count := 0,
                   total_count := 1, failed_chunks := [] }, 0) ∧
    (0 : Nat) + 0 ≠ 1 :=
  ⟨rfl, by decide⟩

/-- C4 (amended): an HTTP 401 (authentication) or 403 (authorization)
error raised while fetching is caught by the data-source collection call
and converted into an empty result list — it is not retried, but it also
does not propagate to the caller or abort the run. -/
theorem C4_auth_errors_swallowed (response : HttpResponse)
    (lookbackHours : Option Int) (withinLookback : PyVal → Bool)
    (h : response.status = 401 ∨ response.status = 403) :
    get_user_activities response lookbackHours withinLookback = Except.ok [] ∧
    get_dataset_refreshes response lookbackHours withinLookback = Except.ok [] := by
  rcases h with h | h <;>
    simp [get_user_activities, get_dataset_refreshes, handle_response, h,
      isFabricAPIException]

/-- Witness for C4: the amended theorem at a concrete 401 response. -/
theorem C4_witness :
    get_user_activities resp401 Option.none (fun _ => true) = Except.ok [] ∧
    get_dataset_refreshes resp401 Option.none (fun _ => true) = Except.ok [] :=
  C4_auth_errors_swallowed resp401 Option.none (fun _ => true) (Or.inl rfl)

/-- Counterexample to C4 as stated: a 403 response whose body holds one
item is turned into the empty list by both collection calls — the
authorization error is swallowed rather than propagated. -/
theorem C4_counterexample :
    get_user_activities resp403 (some 24) (fun _ => true) = Except.ok [] ∧
    get_dataset_refreshes resp403 (some 24) (fun _ => true) = Except.ok [] ∧
    resp403.value ≠ [] :=
  ⟨rfl, rfl, by simp [resp403]⟩

/-- C7 (amended): on an HTTP 429 the fetcher feeds the `Retry-After`
header to `int()` with a default of 60 only when the header is ABSENT; a
numeric header is used as-is; a malformed (non-numeric) header makes
`int()` raise `ValueError`, which aborts `get_paginated` instead of being
defaulted to 60; after a successfully parsed 429 the same page is retried
(sleep not modelled), and this retrying is unbounded — no retry cap is
honored, as an always-429 upstream never terminates for any fuel. -/
theorem C7_rate_limit_handling :
    (∀ (ctx : String) (v : List PyVal) (t : Option String) (s : String),
      handle_response ⟨429, Option.none, v, t, s⟩ ctx =
        Except.error (PyExn.rateLimit ("Rate limited: " ++ ctx) 60)) ∧
    (∀ (ctx : String) (v : List PyVal) (t : Option String) (s : String),
      handle_response ⟨429, some "5", v, t, s⟩ ctx =
        Except.error (PyExn.rateLimit ("Rate limited: " ++ ctx) 5)) ∧
    get_paginated respSeq429 "c" 5 0 [] = some (Except.ok [recA]) ∧
    get_paginated respSeqBad "c" 5 0 [] =
      some (Except.error (PyExn.valueError "invalid literal for int() with base 10: abc")) ∧
    ∀ (fuel calls : Nat) (allItems : List PyVal),
      get_paginated respAll429 "c" fuel calls allItems = Option.none := by
  refine ⟨fun ctx v t s => rfl, fun ctx v t s => rfl, rfl, rfl, ?_⟩
  intro fuel
  induction fuel with
  | zero => intro calls allItems; rfl
  | succ fuel ih =>
    intro calls allItems
    exact ih (calls + 1) allItems

/-- Counterexample to C7 as stated: the first page answers 429 with the
malformed header `Retry-After: abc`; the claim says the fetcher defaults
to 60 seconds and retries the page (which here would succeed and return
one item), but `int(abc)` raises `ValueError` and the fetch aborts. -/
theorem C7_counterexample :
    get_paginated respSeqBad "c" 5 0 [] =
      some (Except.error (PyExn.valueError "invalid literal for int() with base 10: abc")) ∧
    get_paginated respSeqBad "c" 5 0 [] ≠ some (Except.ok [recA]) := by
  constructor
  · rfl
  · intro h
    have h2 : some (Except.error (PyExn.valueError
        "invalid literal for int() with base 10: abc")) =
        some (Except.ok ([recA] : List PyVal)) := h
    simp at h2

/-- C8 (amended): constructing `MonitoringStrategy` with a strategy
string whose lower-casing is not one of auto, full, complement, minimal
does not raise any error — construction always succeeds and the invalid
input is silently coerced to `auto` (with only a logged warning). -/
theorem C8_invalid_strategy_coerced (envValue : Option String) (strategy : String)
    (h : pyLower (envValue.getD strategy) ∉ valid_strategies) :
    (MonitoringStrategy.init envValue strategy).strategy = "auto" := by
  simp [MonitoringStrategy.init, validate_strategy, h]

/-- Witness for C8: the constructor at the invalid strategy `bogus`. -/
theorem C8_witness : (MonitoringStrategy.init Option.none "bogus").strategy = "auto" :=
  C8_invalid_strategy_coerced Option.none "bogus" (by decide)

/-- Counterexample to C8 as stated: the constructor applied to the
invalid strategy `bogus` succeeds (it is a total function — the embedded
`_validate_strategy` has no raise path) and silently coerces the input to
`auto` instead of rejecting it. -/
theorem C8_counterexample :
    MonitoringStrategy.init Option.none "bogus" = ⟨"auto"⟩ ∧
    "bogus" ∉ valid_strategies :=
  ⟨rfl, by decide⟩

/-- C10: when the environment variable `FABRIC_MONITORING_STRATEGY` is
set, its value overrides the constructor argument entirely: the
constructed strategy is the lower-cased environment value when that is
one of the four valid strategies, and `auto` otherwise — in both cases
independently of the constructor argument. -/
theorem C10_env_overrides_argument (envValue strategy : String) :
    (MonitoringStrategy.init (some envValue) strategy).strategy =
      (if pyLower envValue ∈ valid_strategies then pyLower envValue else "auto") := rfl

theorem pyOr_assoc (a b c : PyVal) : pyOr (pyOr a b) c = pyOr a (pyOr b c) := by
  by_cases ha : truthy a
  · simp [pyOr, ha]
  · simp [pyOr, ha]

theorem chain4_eq_firstTruthyOr (g1 g2 g3 g4 : PyVal) :
    pyOr (pyOr (pyOr g1 g2) g3) g4 = firstTruthyOr [g1, g2, g3] g4 := by
  rw [pyOr_assoc, pyOr_assoc]
  simp only [firstTruthyOr, pyOr]

theorem chain3_eq_firstTruthyOr (g1 g2 g3 : PyVal) :
    pyOr (pyOr g1 g2) g3 = firstTruthyOr [g1, g2] g3 := by
  rw [pyOr_assoc]
  simp only [firstTruthyOr, pyOr]

/-- C9 (amended): each fallback-selected target field of
`ActivityRunMapper.map` is filled with the value of the first candidate
key, in the fixed candidate order, whose value is TRUTHY (present,
non-null, non-zero, non-empty); when no candidate is truthy the field is
the last candidate's (falsy) lookup. In particular a present value of `0`
for an earlier candidate is skipped in favour of a later truthy
candidate, because Python `or` tests truthiness, not presence. -/
theorem C9_fallback_first_truthy (output : List (String × PyVal)) :
    activityDataRead [("output", PyVal.dict output)] =
      firstTruthyOr [dictGet output "dataRead", dictGet output "rowsRead",
        dictGet output "recordsRead"] (dictGet output "bytesRead") ∧
    activityDataWritten [("output", PyVal.dict output)] =
      firstTruthyOr [dictGet output "dataWritten", dictGet output "rowsWritten",
        dictGet output "recordsWritten"] (dictGet output "bytesWritten") ∧
    activityRecordsProcessed [("output", PyVal.dict output)] =
      firstTruthyOr [dictGet output "recordsProcessed", dictGet output "rowsProcessed"]
        (dictGet output "itemsProcessed") := by
  cases output with
  | nil => exact ⟨rfl, rfl, rfl⟩
  | cons p rest =>
    have hout : activityOutput [("output", PyVal.dict (p :: rest))] =
        PyVal.dict (p :: rest) := rfl
    refine ⟨?_, ?_, ?_⟩
    · simp only [activityDataRead, hout]
      exact chain4_eq_firstTruthyOr _ _ _ _
    · simp only [activityDataWritten, hout]
      exact chain4_eq_firstTruthyOr _ _ _ _
    · simp only [activityRecordsProcessed, hout]
      exact chain3_eq_firstTruthyOr _ _ _

/-- Counterexample to C9 as stated: an activity output with
`dataRead: 0` (present, non-null) and `rowsRead: 5`. The claim's
first-present-non-null rule selects `0`; the code's `or` chain skips the
falsy `0` and selects `5`. -/
theorem C9_counterexample :
    activityDataRead actCex = PyVal.int 5 ∧
    activityDataRead actCex ≠ PyVal.int 0 := by
  constructor
  · rfl
  · intro h
    have h2 : PyVal.int 5 = PyVal.int 0 := h
    injection h2 with h3
    omega

end FabricLA
